import Mathlib

/-!
Shallow embedding of the conversation-state and backup logic of the
simulated-phone chat client (files: ChatInterface.tsx, the shared type
declarations, and the settings/backup component), together with theorems
checking the frozen claims about it.

Conventions of the embedding:
- TypeScript optional fields (field?) and possibly-absent JSON keys are
  modelled as Option values; a JSON round trip drops keys whose value is
  undefined, so absent and undefined coincide here.
- Machine numbers that the code only ever treats as counts or timestamps
  are modelled as Nat.
- Outside collaborators (the hosted completion API, Date.now, the file
  reader) enter as explicit parameters of the transcribed functions.
-/

namespace Mew2

/-! ## Data model, transcribed from the shared type declarations -/

/-- Role of a chat message (the role union in the Message interface). -/
inductive Role where
  | user
  | model
  | system
deriving DecidableEq, Repr

/-- Mode that generated a message (the mode union in the Message interface). -/
inductive Mode where
  | online
  | offline
  | theater
deriving DecidableEq, Repr

/-- Citation data attached to a message (the quote field of Message). -/
structure Quote where
  id : String
  content : String
  name : String
deriving DecidableEq, Repr

/-- A chat message, as declared in the Message interface. -/
structure Message where
  id : String
  role : Role
  content : String
  osContent : Option String := none
  timestamp : Nat
  mode : Option Mode := none
  scenarioId : Option String := none
  isRecalled : Option Bool := none
  originalContent : Option String := none
  quote : Option Quote := none
  isHidden : Option Bool := none
deriving DecidableEq, Repr

/-- A long-term furnace memory card (the MemoryCard interface). -/
structure MemoryCard where
  id : String
  location : Option String := none
  event : String
  status : Option String := none
  content : String
  timestamp : Nat
  selected : Option Bool := none
deriving DecidableEq, Repr

/-- A character diary entry (the DiaryEntry interface). -/
structure DiaryEntry where
  id : String
  timestamp : Nat
  title : String
  weather : String
  mood : String
  content : String
  isExpanded : Option Bool := none
deriving DecidableEq, Repr

/-- A reaction to a user diary (the PeekReaction interface). -/
structure PeekReaction where
  charId : String
  charName : String
  charAvatar : String
  comment : String
  timestamp : Nat
deriving DecidableEq, Repr

/-- A user diary entry (the UserDiaryEntry interface). -/
structure UserDiaryEntry where
  id : String
  timestamp : Nat
  title : String
  content : String
  weather : String
  mood : String
  peeks : List PeekReaction
  isExpanded : Option Bool := none
deriving DecidableEq, Repr

/-- Furnace (long-term memory) configuration, all fields present
(the FurnaceConfig interface). -/
structure FurnaceConfig where
  autoEnabled : Bool
  autoThreshold : Nat
  autoScope : Nat
  manualScope : Nat
deriving DecidableEq, Repr

/-- Offline-mode configuration, all mandatory fields present
(the OfflineConfig interface). -/
structure OfflineConfig where
  systemPrompt : String
  style : String
  wordCount : Nat
  bgUrl : Option String := none
  indicatorColor : Option String := none
deriving DecidableEq, Repr

/-- A theater scenario (the Scenario interface); the messages field is
present only for isolated scenarios. -/
structure Scenario where
  id : String
  title : String
  description : String
  systemPrompt : String
  isConnected : Bool
  wallpaper : Option String := none
  contextMemory : Option String := none
  messages : Option (List Message) := none
deriving DecidableEq, Repr

/-- The global user persona (the GlobalPersona interface). -/
structure GlobalPersona where
  name : String
  avatar : String
  description : String
  diaries : List UserDiaryEntry
deriving DecidableEq, Repr

/-- Application settings (the AppSettings interface). -/
structure AppSettings where
  apiUrl : String
  apiKey : String
  model : String
  wallpaper : String
  fullScreenMode : Bool
  customFont : Option String := none
  availableModels : List String
  globalPersona : GlobalPersona
deriving DecidableEq, Repr

/-- A character as the typed application state holds it (the Character
interface): mandatory fields are plain, optional fields are Option. -/
structure Character where
  id : String
  name : String
  remark : String
  avatar : String
  description : String
  personality : String
  systemPrompt : String
  osSystemPrompt : Option String := none
  showOS : Option Bool := none
  useLocalPersona : Bool
  userMaskName : String
  userMaskAvatar : Option String := none
  userMaskDescription : Option String := none
  realTimeMode : Bool
  chatBackground : Option String := none
  contextMemory : String
  historyCount : Nat
  furnaceConfig : FurnaceConfig
  offlineConfig : OfflineConfig
  scenarios : Option (List Scenario) := none
  memories : List MemoryCard
  messages : List Message
  diaries : List DiaryEntry
  isPinned : Option Bool := none
  unread : Option Nat := none
deriving DecidableEq, Repr

/-! ## Generic helpers for the JavaScript operations the code uses -/

/-- The last n elements of a list (drop all but n); for n = 0 this is the
empty list, and for n larger than the length it is the whole list. This is
the plain-language reading of the phrase (the last n elements). -/
def lastN (n : Nat) (l : List α) : List α :=
  l.drop (l.length - n)

/-- The JavaScript expression l.slice(-n) for a nonnegative number n: the
index -0 is 0, so for n = 0 the WHOLE list is returned; for n greater than
zero it is the last n elements. -/
def sliceLastJS (n : Nat) (l : List α) : List α :=
  if n = 0 then l else lastN n l

/-- The JavaScript String.prototype.trim call on the input text, modelled
as dropping whitespace from both ends. (Defined by hand because the core
String.trim does not reduce in the kernel.) -/
def jsTrim (s : String) : String :=
  String.mk (((s.data.dropWhile Char.isWhitespace).reverse.dropWhile Char.isWhitespace).reverse)

/-- Fuel-indexed substitution of a pattern by a replacement in a character
list; the fuel is the length of the input, and each step consumes at least
one character when the pattern is nonempty. -/
def substFuel : Nat → List Char → List Char → List Char → List Char
  | 0, rest, _, _ => rest
  | _ + 1, [], _, _ => []
  | n + 1, ch :: cs, pat, rep =>
    if pat ≠ [] ∧ List.take pat.length (ch :: cs) = pat then
      rep ++ substFuel n (List.drop pat.length (ch :: cs)) pat rep
    else
      ch :: substFuel n cs pat rep

/-- Modelled from the spec: the prompt template interpolation helper of
the AI service (the service module is not under the sources provided);
per the spec it interpolates the named bindings into the template, here by
replacing each double-brace-wrapped key with its value. No claim depends
on the placeholder form, only on which template and bindings are passed. -/
def interpolatePrompt (template : String) (bindings : List (String × String)) : String :=
  bindings.foldl
    (fun acc kv =>
      String.mk
        (substFuel acc.data.length acc.data
          ("\x7b\x7b".data ++ kv.fst.data ++ "\x7d\x7d".data) kv.snd.data))
    template

/-! ## The chat turn (handleSendMessage in ChatInterface.tsx) -/

/-- An entry of the payload sent to the completion API: a plain
role/content pair whose role is a string after mapping. -/
structure ChatMsg where
  role : String
  content : String
deriving DecidableEq, Repr

/-- The string form of a role as it appears in message objects. -/
def Role.js : Role → String
  | .user => "user"
  | .model => "model"
  | .system => "system"

/-- The history mapping of handleSendMessage: each stored message becomes
a role/content pair, with the role model renamed to assistant. -/
def toHistoryEntry (m : Message) : ChatMsg :=
  { role := if m.role = Role.model then "assistant" else m.role.js
    content := m.content }

/-- The offline-mode test of handleSendMessage: the truthiness of
character.offlineConfig.bgUrl, which holds exactly when bgUrl is a
present, nonempty string. -/
def isOfflineMode (c : Character) : Bool :=
  match c.offlineConfig.bgUrl with
  | some s => s != ""
  | none => false

/-- The interpolated system prompt of handleSendMessage: the offline
template when in offline mode, the online template otherwise, with the
five bindings taken from the character. -/
def selectedSystemPrompt (c : Character) : String :=
  interpolatePrompt
    (if isOfflineMode c then c.offlineConfig.systemPrompt else c.systemPrompt)
    [("ai_name", c.name),
     ("user_mask_name", c.userMaskName),
     ("personality", c.personality),
     ("style", c.offlineConfig.style),
     ("word_count", toString c.offlineConfig.wordCount)]

/-- The observable outcome of one completed handleSendMessage call: the
user message it created, the payload it sent, and the model reply message
(none when the completion request failed). -/
structure SendResult where
  userMsg : Message
  payload : List ChatMsg
  aiMsg : Option Message
deriving DecidableEq, Repr

/-- Transcription of handleSendMessage (ChatInterface.tsx). The clock
(Date.now) is the parameter now, and the outcome of the awaited
generateChatCompletion call is the parameter response (some content on
success, none when it throws). Returns none when the guard fires (blank
input after trimming, or a generation already in progress); otherwise the
user message is created and sent via onAddMessage, the payload is built
from the sliced history, and on success the model reply is created with
the same mode as the user message. -/
def handleSendMessage (c : Character) (inputText : String)
    (isGlobalGenerating : Bool) (now : Nat) (response : Option String) :
    Option SendResult :=
  if jsTrim inputText = "" ∨ isGlobalGenerating = true then none
  else
    let mode : Mode := if isOfflineMode c then Mode.offline else Mode.online
    let userMsg : Message :=
      { id := toString now
        role := Role.user
        content := inputText
        timestamp := now
        mode := some mode }
    let history := (sliceLastJS c.historyCount c.messages).map toHistoryEntry
    let conversation := history ++ [{ role := "user", content := userMsg.content }]
    let payload : List ChatMsg :=
      { role := "system", content := selectedSystemPrompt c } :: conversation
    match response with
    | some content =>
      some { userMsg := userMsg
             payload := payload
             aiMsg := some
               { id := toString (now + 1)
                 role := Role.model
                 content := content
                 timestamp := now
                 mode := userMsg.mode } }
    | none =>
      some { userMsg := userMsg, payload := payload, aiMsg := none }

/-! ## Message persistence and furnace summarization -/

/-- Modelled from the spec: the App-level onAddMessage handler invoked by
ChatInterface (its implementation is not under the sources provided); per
the spec it appends the given message to the message history of the
addressed character. -/
def onAddMessage (history : List Message) (m : Message) : List Message :=
  history ++ [m]

/-- Modelled from the spec: the threshold-triggered furnace summarization
step (its implementation is not under the sources provided). Per the spec
and the FurnaceConfig field documentation, when autoEnabled is set and the
stored message count reaches autoThreshold, the last autoScope messages
are summarized (by the hosted model, the parameter summarize) into a new
memory card appended to the memories of the character. -/
def furnaceAutoStep (summarize : List Message → MemoryCard) (c : Character) : Character :=
  if c.furnaceConfig.autoEnabled ∧ c.furnaceConfig.autoThreshold ≤ c.messages.length then
    { c with memories := c.memories ++ [summarize (lastN c.furnaceConfig.autoScope c.messages)] }
  else c

/-! ## Generation-flag discipline (the sequential request/response glue)

JavaScript runs each stretch of an async function between awaits
atomically. In handleSendMessage the guard, the flag set and the request
issue happen before the first await, and the resolution (or rejection)
and the flag clear in the finally block happen together after it; the two
stretches are the two atomic actions of this transition system. -/

/-- State of the generation glue: the isGlobalGenerating flag and the
number of completion requests in flight. -/
structure GenState where
  generating : Bool
  inFlight : Nat
deriving DecidableEq, Repr

/-- Atomic actions of the glue: a handleSendMessage invocation (with the
blankness of its trimmed input), and the completion of the awaited request
(resolution or rejection, followed by the finally block). -/
inductive GenAction where
  | invoke (blank : Bool)
  | finish
deriving DecidableEq, Repr

/-- One atomic step: an invocation is a no-op when the input is blank or a
generation is in progress, and otherwise sets the flag and issues the
request; a completion clears the flag in the finally block. -/
def genStep (s : GenState) : GenAction → GenState
  | .invoke blank =>
    if blank ∨ s.generating = true then s
    else { generating := true, inFlight := s.inFlight + 1 }
  | .finish =>
    if s.inFlight = 0 then s
    else { generating := false, inFlight := s.inFlight - 1 }

/-- The state reached from the initial state (no flag, nothing in flight)
by a sequence of atomic actions. -/
def genRun (acts : List GenAction) : GenState :=
  acts.foldl genStep { generating := false, inFlight := 0 }

/-! ## Raw (JSON-level) characters and the backup pipeline

The settings component handles characters from parsed backup JSON as
untyped values; fields that its code guards or merges are therefore
Option here (none standing for an absent or non-array value). -/

/-- Furnace configuration as raw backup data: every field may be absent. -/
structure RawFurnaceConfig where
  autoEnabled : Option Bool := none
  autoThreshold : Option Nat := none
  autoScope : Option Nat := none
  manualScope : Option Nat := none
deriving DecidableEq, Repr

/-- Offline configuration as raw backup data: every field may be absent. -/
structure RawOfflineConfig where
  systemPrompt : Option String := none
  style : Option String := none
  wordCount : Option Nat := none
  bgUrl : Option String := none
  indicatorColor : Option String := none
deriving DecidableEq, Repr

/-- A character as the backup pipeline sees it: the fields that the
export and sanitization code guards are Option; the remaining fields ride
along through the object spreads. -/
structure RawCharacter where
  id : String
  name : String
  remark : String
  avatar : String
  description : String
  personality : String
  systemPrompt : String
  osSystemPrompt : Option String := none
  showOS : Option Bool := none
  useLocalPersona : Option Bool := none
  userMaskName : String
  userMaskAvatar : Option String := none
  userMaskDescription : Option String := none
  realTimeMode : Option Bool := none
  chatBackground : Option String := none
  contextMemory : String
  historyCount : Nat
  furnaceConfig : Option RawFurnaceConfig := none
  offlineConfig : Option RawOfflineConfig := none
  scenarios : Option (List Scenario) := none
  memories : Option (List MemoryCard) := none
  messages : Option (List Message) := none
  diaries : Option (List DiaryEntry) := none
  isPinned : Option Bool := none
  unread : Option Nat := none
deriving DecidableEq, Repr

/-- A backup file (the BackupData interface). -/
structure BackupData where
  version : Nat
  type : Option String := none
  timestamp : Nat
  settings : AppSettings
  characters : List RawCharacter
deriving DecidableEq, Repr

/-- One field of a JavaScript object spread: the override value when its
key is present, the base value otherwise. -/
def spreadOpt (base override : Option α) : Option α :=
  match override with
  | some x => some x
  | none => base

/-- The DEFAULT_FURNACE_CONFIG constant of the settings component, in raw
(all fields present) form. -/
def DEFAULT_FURNACE_CONFIG : RawFurnaceConfig :=
  { autoEnabled := some false
    autoThreshold := some 20
    autoScope := some 30
    manualScope := some 30 }

/-- Modelled from the spec: the DEFAULT_OFFLINE_PROMPT constant imported
from the constants module (which is not under the sources provided); its
exact text is irrelevant to every claim. -/
def DEFAULT_OFFLINE_PROMPT : String :=
  "default offline prompt"

/-- The DEFAULT_OFFLINE_CONFIG constant of the settings component, in raw
(all fields present) form. -/
def DEFAULT_OFFLINE_CONFIG : RawOfflineConfig :=
  { systemPrompt := some DEFAULT_OFFLINE_PROMPT
    style := some "细腻、沉浸、小说感"
    wordCount := some 150
    bgUrl := some ""
    indicatorColor := some "#f59e0b" }

/-- The furnace-config spread of confirmImport, merging the defaults with
the (possibly absent) imported configuration, field by field. -/
def mergeFurnaceConfig (o : Option RawFurnaceConfig) : RawFurnaceConfig :=
  let r := o.getD {}
  { autoEnabled := spreadOpt DEFAULT_FURNACE_CONFIG.autoEnabled r.autoEnabled
    autoThreshold := spreadOpt DEFAULT_FURNACE_CONFIG.autoThreshold r.autoThreshold
    autoScope := spreadOpt DEFAULT_FURNACE_CONFIG.autoScope r.autoScope
    manualScope := spreadOpt DEFAULT_FURNACE_CONFIG.manualScope r.manualScope }

/-- The offline-config spread of confirmImport, merging the defaults with
the (possibly absent) imported configuration, field by field. -/
def mergeOfflineConfig (o : Option RawOfflineConfig) : RawOfflineConfig :=
  let r := o.getD {}
  { systemPrompt := spreadOpt DEFAULT_OFFLINE_CONFIG.systemPrompt r.systemPrompt
    style := spreadOpt DEFAULT_OFFLINE_CONFIG.style r.style
    wordCount := spreadOpt DEFAULT_OFFLINE_CONFIG.wordCount r.wordCount
    bgUrl := spreadOpt DEFAULT_OFFLINE_CONFIG.bgUrl r.bgUrl
    indicatorColor := spreadOpt DEFAULT_OFFLINE_CONFIG.indicatorColor r.indicatorColor }

/-- The per-character sanitization of confirmImport: configurations are
merged over the defaults, the four list fields are forced to arrays, and
the three toggles are forced to booleans via nullish coalescing. -/
def sanitizeCharacter (c : RawCharacter) : RawCharacter :=
  { c with
    furnaceConfig := some (mergeFurnaceConfig c.furnaceConfig)
    offlineConfig := some (mergeOfflineConfig c.offlineConfig)
    scenarios := some (c.scenarios.getD [])
    diaries := some (c.diaries.getD [])
    memories := some (c.memories.getD [])
    messages := some (c.messages.getD [])
    useLocalPersona := some (c.useLocalPersona.getD false)
    realTimeMode := some (c.realTimeMode.getD false)
    showOS := some (c.showOS.getD false) }

/-- Decidable form of the sanitization invariant of claim ten: both
configurations are present with every default field defined, the four
list fields are arrays, and the three toggles are booleans. -/
def sanitizedOk (c : RawCharacter) : Bool :=
  (match c.furnaceConfig with
   | some fc => fc.autoEnabled.isSome && fc.autoThreshold.isSome
       && fc.autoScope.isSome && fc.manualScope.isSome
   | none => false)
  && (match c.offlineConfig with
      | some oc => oc.systemPrompt.isSome && oc.style.isSome && oc.wordCount.isSome
          && oc.bgUrl.isSome && oc.indicatorColor.isSome
      | none => false)
  && c.scenarios.isSome && c.diaries.isSome && c.memories.isSome && c.messages.isSome
  && c.useLocalPersona.isSome && c.realTimeMode.isSome && c.showOS.isSome

/-- The per-scenario mapping of handleExportBackup: a present messages
array is sliced to its last fifty entries (an empty array is still truthy
in JavaScript, hence still sliced), an absent one becomes an empty array. -/
def exportScenario (s : Scenario) : Scenario :=
  { s with
    messages := some (match s.messages with
      | some l => sliceLastJS 50 l
      | none => []) }

/-- The per-character mapping of handleExportBackup: the messages array is
sliced to its last fifty entries when it is an array (an empty array
otherwise), and each scenario of a present scenarios array is mapped; an
absent scenarios field stays absent through the optional chain. -/
def exportCharacter (c : RawCharacter) : RawCharacter :=
  { c with
    messages := some (match c.messages with
      | some l => sliceLastJS 50 l
      | none => [])
    scenarios := c.scenarios.map (List.map exportScenario) }

/-- Transcription of handleExportBackup (settings component): the backup
object built for download, with Date.now as the parameter now. -/
def handleExportBackup (now : Nat) (settings : AppSettings)
    (characters : List RawCharacter) : BackupData :=
  { version := 1
    type := some "small_phone_backup"
    timestamp := now
    settings := settings
    characters := characters.map exportCharacter }

/-- The staging step of handleImportFileSelect specialized to a parsed
backup that, like every exported one, has a settings object and a
characters array: version and timestamp are defaulted when falsy (zero),
and the settings object (truthy, being an object) and the characters
array are kept. -/
def stageExportedBackup (b : BackupData) (now : Nat) : BackupData :=
  { version := if b.version = 0 then 1 else b.version
    type := some "small_phone_backup"
    timestamp := if b.timestamp = 0 then now else b.timestamp
    settings := b.settings
    characters := b.characters }

/-- Transcription of confirmImport (settings component) as a state
transformer on the settings and the character list: with nothing pending
it is a no-op; with a pending backup its settings (always a truthy object
here) are applied and its characters array is sanitized and applied. -/
def confirmImport (pending : Option BackupData) (curSettings : AppSettings)
    (curChars : List RawCharacter) : AppSettings × List RawCharacter :=
  match pending with
  | none => (curSettings, curChars)
  | some b => (b.settings, b.characters.map sanitizeCharacter)

/-- The full backup round trip of claim six: export the current settings
and characters, stage the (structurally faithful) parse of the exported
file, and confirm the import. -/
def backupRoundTrip (now : Nat) (settings : AppSettings)
    (characters : List RawCharacter) : AppSettings × List RawCharacter :=
  confirmImport
    (some (stageExportedBackup (handleExportBackup now settings characters) now))
    settings characters

/-- The per-character export result as claim eight words it: messages
become the last fifty elements (empty when not an array), and the
messages of each scenario become its last fifty elements (or empty); all
other fields unchanged. -/
def exportedCharacterAsClaimed (c : RawCharacter) : RawCharacter :=
  { c with
    messages := some (lastN 50 (c.messages.getD []))
    scenarios := c.scenarios.map (List.map fun s =>
      { s with messages := some (lastN 50 (s.messages.getD [])) }) }

/-- The round-trip result as claim six words it: the character restored
with its message list truncated to the last fifty elements, the message
list of each ISOLATED scenario truncated likewise, and missing fields
filled by sanitization; a connected scenario is left unchanged. -/
def restoredCharacterAsClaimed (c : RawCharacter) : RawCharacter :=
  { sanitizeCharacter c with
    messages := some (lastN 50 (c.messages.getD []))
    scenarios := some ((c.scenarios.getD []).map fun s =>
      if s.isConnected then s
      else { s with messages := some (lastN 50 (s.messages.getD [])) }) }

/-- The round-trip result as the amended claim six words it: as claimed,
except that the messages field of EVERY scenario, connected or isolated,
becomes the last fifty elements of its message list (an empty array when
it was absent). -/
def restoredCharacterAmended (c : RawCharacter) : RawCharacter :=
  { sanitizeCharacter c with
    messages := some (lastN 50 (c.messages.getD []))
    scenarios := some ((c.scenarios.getD []).map fun s =>
      { s with messages := some (lastN 50 (s.messages.getD [])) }) }

/-! ## JSON-level import validation (handleImportFileSelect)

The file-select handler works on the raw parse result of an arbitrary
file, so it is modelled over a small JSON value type; the platform
JSON.parse call enters as the parameter parsed (none when it throws). -/

/-- A parsed JSON value. -/
inductive JsonValue where
  | null
  | bool (b : Bool)
  | num (n : Int)
  | str (s : String)
  | arr (elems : List JsonValue)
  | obj (fields : List (String × JsonValue))

/-- JavaScript truthiness of a JSON value: null, false, zero and the
empty string are falsy; every array and object is truthy. -/
def jsonTruthy : JsonValue → Bool
  | .null => false
  | .bool b => b
  | .num n => n != 0
  | .str s => s != ""
  | .arr _ => true
  | .obj _ => true

/-- The JavaScript typeof test against the string object: true for null,
arrays and objects. -/
def jsonTypeofIsObject : JsonValue → Bool
  | .null => true
  | .arr _ => true
  | .obj _ => true
  | _ => false

/-- Property access on a parsed JSON value: the first binding of the key
in an object, absent otherwise. -/
def getField (j : JsonValue) (key : String) : Option JsonValue :=
  match j with
  | .obj fields => (fields.find? (fun kv => kv.fst == key)).map (fun kv => kv.snd)
  | _ => none

/-- Truthiness of a possibly absent property, as a bare JavaScript
condition evaluates it: an absent property is falsy. -/
def truthyField (j : JsonValue) (key : String) : Bool :=
  match getField j key with
  | some v => jsonTruthy v
  | none => false

/-- The JavaScript a-or-b expression on a possibly absent property: the
property when present and truthy, the fallback otherwise. -/
def jsOr (v : Option JsonValue) (fallback : JsonValue) : JsonValue :=
  match v with
  | some x => if jsonTruthy x then x else fallback
  | none => fallback

/-- The backup object that handleImportFileSelect stages for the
confirmation modal, with each field still a raw JSON value. -/
structure StagedBackupJson where
  version : JsonValue
  type : String
  timestamp : JsonValue
  settings : JsonValue
  characters : JsonValue

/-- The end state of an import attempt, shown in the status area. -/
inductive ImportMsg where
  | idle
  | errorShown
  | waitingConfirm
deriving DecidableEq, Repr

/-- The component state that the file-select handler touches: the
application settings and characters (as raw values, standing for
whatever updateSettings and onUpdateCharacters govern), the pending
staged backup, and the status message. -/
structure ImportJsState where
  settingsJson : JsonValue
  charactersJson : JsonValue
  pending : Option StagedBackupJson
  msg : ImportMsg

/-- Transcription of handleImportFileSelect (settings component), from
the point where the file has been read: raw is the file content and
parsed the result of JSON.parse on it (none when parsing throws). Every
failure branch reports an error and leaves nothing pending; the success
branch stages the constructed backup object and waits for confirmation.
The application settings and characters are never touched. -/
def handleImportFileSelect (st : ImportJsState) (raw : String)
    (parsed : Option JsonValue) (now : Int) : ImportJsState :=
  if raw = "" then { st with pending := none, msg := ImportMsg.errorShown }
  else
    match parsed with
    | none => { st with pending := none, msg := ImportMsg.errorShown }
    | some data =>
      if ¬ (jsonTruthy data = true ∧ jsonTypeofIsObject data = true) then
        { st with pending := none, msg := ImportMsg.errorShown }
      else if truthyField data "settings" = false ∧ truthyField data "characters" = false then
        { st with pending := none, msg := ImportMsg.errorShown }
      else
        { st with
          pending := some
            { version := jsOr (getField data "version") (JsonValue.num 1)
              type := "small_phone_backup"
              timestamp := jsOr (getField data "timestamp") (JsonValue.num now)
              settings := jsOr (getField data "settings") st.settingsJson
              characters := match getField data "characters" with
                | some (JsonValue.arr xs) => JsonValue.arr xs
                | _ => JsonValue.arr [] }
          msg := ImportMsg.waitingConfirm }

/-- The staging condition as claim nine words it: the content is
non-empty, parses as JSON, is an object, and has at least one of the
fields settings or characters. -/
def stagedAsClaimed (raw : String) (parsed : Option JsonValue) : Bool :=
  raw != "" &&
    match parsed with
    | some (JsonValue.obj fields) =>
      (fields.find? (fun kv => kv.fst == "settings")).isSome
        || (fields.find? (fun kv => kv.fst == "characters")).isSome
    | _ => false

/-! ## Sample values used by the concrete witnesses and counterexamples -/

/-- A minimal global persona. -/
def samplePersona : GlobalPersona :=
  { name := "me", avatar := "a.png", description := "", diaries := [] }

/-- A minimal settings object. -/
def sampleSettings : AppSettings :=
  { apiUrl := "https://api.example.com/v1"
    apiKey := "sk-test"
    model := "gpt-4o"
    wallpaper := "w.png"
    fullScreenMode := false
    availableModels := ["gpt-4o"]
    globalPersona := samplePersona }

/-- A stored model message used as prior history. -/
def sampleStoredMessage : Message :=
  { id := "m1", role := Role.model, content := "earlier reply", timestamp := 5 }

/-- A typed character in online mode (no background URL) with two stored
messages and a window of one. -/
def sampleCharacter : Character :=
  { id := "c1"
    name := "Lan"
    remark := "Lan"
    avatar := "lan.png"
    description := "a friend"
    personality := "warm"
    systemPrompt := "online template \x7b\x7bai_name\x7d\x7d"
    useLocalPersona := false
    userMaskName := "Traveler"
    realTimeMode := false
    contextMemory := ""
    historyCount := 1
    furnaceConfig :=
      { autoEnabled := true, autoThreshold := 2, autoScope := 3, manualScope := 3 }
    offlineConfig :=
      { systemPrompt := "offline template", style := "plain", wordCount := 150 }
    memories := []
    messages := [{ id := "m0", role := Role.user, content := "hello", timestamp := 1 },
                 sampleStoredMessage]
    diaries := [] }

/-- The same character with a history window of zero, where the JavaScript
slice of minus zero returns the whole history. -/
def sampleCharacterWindowZero : Character :=
  { sampleCharacter with historyCount := 0 }

/-- A summarizer standing for the hosted model in the furnace witness. -/
def sampleSummarize (l : List Message) : MemoryCard :=
  { id := "card", event := "summary", content := toString l.length, timestamp := 9 }

/-- A raw character whose only scenario is CONNECTED and has no messages
field; the export step still gives it an empty messages array, which the
original wording of claim six does not allow. -/
def sampleRawConnected : RawCharacter :=
  { id := "r1"
    name := "Mev"
    remark := "Mev"
    avatar := "m.png"
    description := ""
    personality := ""
    systemPrompt := "tpl"
    userMaskName := "me"
    contextMemory := ""
    historyCount := 10
    scenarios := some [{ id := "s1", title := "stage", description := ""
                         systemPrompt := "tpl2", isConnected := true }]
    messages := some [] }

/-- A raw character with no optional fields at all, as an old backup may
contain. -/
def sampleRawBare : RawCharacter :=
  { id := "r2"
    name := "Old"
    remark := "Old"
    avatar := "o.png"
    description := ""
    personality := ""
    systemPrompt := ""
    userMaskName := ""
    contextMemory := ""
    historyCount := 20 }

/-- A pending backup holding the bare raw character. -/
def sampleBackup : BackupData :=
  { version := 1, timestamp := 3, settings := sampleSettings
    characters := [sampleRawBare] }

/-- An initial component state for the import handler. -/
def sampleImportState : ImportJsState :=
  { settingsJson := JsonValue.obj []
    charactersJson := JsonValue.arr []
    pending := none
    msg := ImportMsg.idle }

/-- The parse of a file whose settings field is present but false: it has
the field, yet the truthiness check of the handler rejects it. -/
def sampleFalseSettingsJson : JsonValue :=
  JsonValue.obj [("settings", JsonValue.bool false)]

/-- The payload as claim one words it: the system prompt, then the last
historyCount stored messages mapped to role/content pairs, then the new
user message. -/
def payloadAsClaimed (c : Character) (inputText : String) : List ChatMsg :=
  { role := "system", content := selectedSystemPrompt c } ::
    ((lastN c.historyCount c.messages).map toHistoryEntry
      ++ [{ role := "user", content := inputText }])

/-! ## Helper lemmas -/

/-- A spread whose base field is present always yields a present field. -/
theorem spreadOpt_some_isSome (v : α) (o : Option α) :
    (spreadOpt (some v) o).isSome = true := by
  cases o <;> simp [spreadOpt]

/-- The per-scenario export in closed form: the messages of a scenario
become the last fifty entries of its (possibly absent) message list. -/
theorem exportScenario_eq (s : Scenario) :
    exportScenario s = { s with messages := some (lastN 50 (s.messages.getD [])) } := by
  cases hm : s.messages <;> simp [exportScenario, hm, sliceLastJS, lastN]

/-- The per-character export agrees with the wording of claim eight. -/
theorem exportCharacter_eq_claimed (c : RawCharacter) :
    exportCharacter c = exportedCharacterAsClaimed c := by
  have hfun : exportScenario =
      fun s => { s with messages := some (lastN 50 (s.messages.getD [])) } :=
    funext exportScenario_eq
  unfold exportCharacter exportedCharacterAsClaimed
  rw [hfun]
  cases hm : c.messages <;> simp [hm, sliceLastJS, lastN]

/-- Sanitizing an exported character gives the amended claim-six form. -/
theorem sanitize_export_eq_amended (c : RawCharacter) :
    sanitizeCharacter (exportCharacter c) = restoredCharacterAmended c := by
  have hfun : exportScenario =
      fun s => { s with messages := some (lastN 50 (s.messages.getD [])) } :=
    funext exportScenario_eq
  unfold exportCharacter restoredCharacterAmended
  rw [hfun]
  cases hm : c.messages <;> cases hs : c.scenarios <;>
    simp [hm, hs, sanitizeCharacter, sliceLastJS, lastN]

/-! ## Claim theorems -/

/-- Claim C1, counterexample: with a history window of zero and a
nonempty stored history, the payload the code builds contains the whole
history (the JavaScript slice of minus zero), while the claimed payload
contains the last zero stored messages, that is none of them. -/
theorem history_windowing_cex :
    (handleSendMessage sampleCharacterWindowZero "hi" false 0 (some "ok")).map
        SendResult.payload
      ≠ some (payloadAsClaimed sampleCharacterWindowZero "hi") := by
  decide

/-- Claim C1 (amended): for every send of a non-blank input while no
generation is in progress, the payload passed to generateChatCompletion
is exactly the system prompt, followed by the last historyCount stored
messages when historyCount is nonzero and by ALL stored messages when it
is zero (each mapped to a role/content pair with the role model renamed
to assistant), followed by the new user message. -/
theorem history_windowing_amended (c : Character) (input : String) (now : Nat)
    (resp : String) (h : jsTrim input ≠ "") :
    (handleSendMessage c input false now (some resp)).map SendResult.payload =
      some ({ role := "system", content := selectedSystemPrompt c } ::
        ((if c.historyCount = 0 then c.messages
          else lastN c.historyCount c.messages).map toHistoryEntry
          ++ [{ role := "user", content := input }])) := by
  rw [handleSendMessage, if_neg (by simp [h])]
  simp [sliceLastJS]

/-- Claim C1, witness: the amended theorem applied to a concrete
character, input and response. -/
theorem history_windowing_witness :
    (handleSendMessage sampleCharacter "hi" false 0 (some "ok")).map SendResult.payload =
      some ({ role := "system", content := selectedSystemPrompt sampleCharacter } ::
        ((if sampleCharacter.historyCount = 0 then sampleCharacter.messages
          else lastN sampleCharacter.historyCount sampleCharacter.messages).map toHistoryEntry
          ++ [{ role := "user", content := "hi" }])) :=
  history_windowing_amended sampleCharacter "hi" 0 "ok" (by decide)

/-- Claim C2: on every send the system prompt template is the offline one
exactly when the background URL is a present nonempty string and the
online one otherwise, the user message and the model reply produced in
the turn carry the corresponding mode, and theater is a further possible
mode of a message, distinct from both. -/
theorem multi_mode_context (c : Character) (input : String) (now : Nat)
    (resp : String) (h : jsTrim input ≠ "") :
    ∃ r : SendResult,
      handleSendMessage c input false now (some resp) = some r ∧
      r.payload.head? = some
        { role := "system"
          content := interpolatePrompt
            (if isOfflineMode c then c.offlineConfig.systemPrompt else c.systemPrompt)
            [("ai_name", c.name), ("user_mask_name", c.userMaskName),
             ("personality", c.personality), ("style", c.offlineConfig.style),
             ("word_count", toString c.offlineConfig.wordCount)] } ∧
      (isOfflineMode c = true ↔ ∃ s, c.offlineConfig.bgUrl = some s ∧ s ≠ "") ∧
      r.userMsg.mode = some (if isOfflineMode c then Mode.offline else Mode.online) ∧
      (∀ a, r.aiMsg = some a → a.mode = r.userMsg.mode) ∧
      Mode.theater ≠ Mode.online ∧ Mode.theater ≠ Mode.offline := by
  rw [handleSendMessage, if_neg (by simp [h])]
  refine ⟨_, rfl, ?_, ?_, rfl, ?_, by decide, by decide⟩
  · simp [selectedSystemPrompt]
  · cases hb : c.offlineConfig.bgUrl with
    | none => simp [isOfflineMode, hb]
    | some s => simp [isOfflineMode, hb, bne_iff_ne]
  · intro a ha
    cases ha
    rfl

/-- Claim C2, witness: the theorem applied to a concrete character, input
and response. -/
theorem multi_mode_context_witness :
    ∃ r : SendResult,
      handleSendMessage sampleCharacter "hi" false 0 (some "ok") = some r ∧
      r.payload.head? = some
        { role := "system"
          content := interpolatePrompt
            (if isOfflineMode sampleCharacter then sampleCharacter.offlineConfig.systemPrompt
             else sampleCharacter.systemPrompt)
            [("ai_name", sampleCharacter.name),
             ("user_mask_name", sampleCharacter.userMaskName),
             ("personality", sampleCharacter.personality),
             ("style", sampleCharacter.offlineConfig.style),
             ("word_count", toString sampleCharacter.offlineConfig.wordCount)] } ∧
      (isOfflineMode sampleCharacter = true ↔
        ∃ s, sampleCharacter.offlineConfig.bgUrl = some s ∧ s ≠ "") ∧
      r.userMsg.mode =
        some (if isOfflineMode sampleCharacter then Mode.offline else Mode.online) ∧
      (∀ a, r.aiMsg = some a → a.mode = r.userMsg.mode) ∧
      Mode.theater ≠ Mode.online ∧ Mode.theater ≠ Mode.offline :=
  multi_mode_context sampleCharacter "hi" 0 "ok" (by decide)

/-- Claim C3: when automatic furnace summarization is enabled and the
stored message count has reached the threshold, the summarization step
appends to the memories exactly one new card, the summary of the last
autoScope stored messages. -/
theorem furnace_threshold_summarization (summarize : List Message → MemoryCard)
    (c : Character) (h1 : c.furnaceConfig.autoEnabled = true)
    (h2 : c.furnaceConfig.autoThreshold ≤ c.messages.length) :
    (furnaceAutoStep summarize c).memories =
      c.memories ++ [summarize (lastN c.furnaceConfig.autoScope c.messages)] := by
  simp [furnaceAutoStep, h1, h2]

/-- Claim C3, witness: the theorem applied to a concrete summarizer and a
character at its threshold. -/
theorem furnace_threshold_summarization_witness :
    (furnaceAutoStep sampleSummarize sampleCharacter).memories =
      sampleCharacter.memories ++
        [sampleSummarize
          (lastN sampleCharacter.furnaceConfig.autoScope sampleCharacter.messages)] :=
  furnace_threshold_summarization sampleSummarize sampleCharacter rfl (by decide)

/-- Claim C4: every successfully completed turn creates exactly the user
message and then the model reply, the reply has role model and the mode
of the user message, and appending both through onAddMessage extends the
stored history without modifying or removing any existing message. -/
theorem message_append (c : Character) (input : String) (now : Nat)
    (resp : String) (h : jsTrim input ≠ "") :
    ∃ r a, handleSendMessage c input false now (some resp) = some r ∧
      r.aiMsg = some a ∧
      r.userMsg.role = Role.user ∧ a.role = Role.model ∧ a.mode = r.userMsg.mode ∧
      [r.userMsg, a].foldl onAddMessage c.messages = c.messages ++ [r.userMsg, a] := by
  rw [handleSendMessage, if_neg (by simp [h])]
  refine ⟨_, _, rfl, rfl, rfl, rfl, rfl, ?_⟩
  simp [onAddMessage]

/-- Claim C4, witness: the theorem applied to a concrete character, input
and response. -/
theorem message_append_witness :
    ∃ r a, handleSendMessage sampleCharacter "hi" false 0 (some "ok") = some r ∧
      r.aiMsg = some a ∧
      r.userMsg.role = Role.user ∧ a.role = Role.model ∧ a.mode = r.userMsg.mode ∧
      [r.userMsg, a].foldl onAddMessage sampleCharacter.messages =
        sampleCharacter.messages ++ [r.userMsg, a] :=
  message_append sampleCharacter "hi" 0 "ok" (by decide)

/-- Claim C5: a send attempted while a generation is in progress returns
without any effect; an invocation step from a generating state is the
identity; and in every state reachable by invocation and completion
steps the number of requests in flight is one when the flag is set and
zero otherwise, so a second in-flight request is unreachable. -/
theorem sequential_request_response :
    (∀ (c : Character) (input : String) (now : Nat) (response : Option String),
        handleSendMessage c input true now response = none) ∧
    (∀ (s : GenState) (blank : Bool), s.generating = true →
        genStep s (GenAction.invoke blank) = s) ∧
    (∀ acts : List GenAction,
        (genRun acts).inFlight = if (genRun acts).generating then 1 else 0) := by
  refine ⟨?_, ?_, ?_⟩
  · intro c input now response
    simp [handleSendMessage]
  · intro s blank hs
    simp [genStep, hs]
  · intro acts
    have key : ∀ (l : List GenAction) (s : GenState),
        s.inFlight = (if s.generating then 1 else 0) →
        (l.foldl genStep s).inFlight = if (l.foldl genStep s).generating then 1 else 0 := by
      intro l
      induction l with
      | nil => intro s hs; simpa using hs
      | cons a t ih =>
        intro s hs
        apply ih
        cases a with
        | invoke blank =>
          simp only [genStep]
          split
          · exact hs
          · next hcond =>
              have hg : s.generating = false := by
                cases hgen : s.generating
                · rfl
                · exact absurd hgen (fun hh => hcond (Or.inr hh))
              have hz : s.inFlight = 0 := by rw [hs, hg]; simp
              simp [hz]
        | finish =>
          simp only [genStep]
          split
          · exact hs
          · next hz =>
              have hle : s.inFlight ≤ 1 := by
                by_cases hg : s.generating = true <;> simp [hg] at hs <;> omega
              simp
              omega
    exact key acts { generating := false, inFlight := 0 } (by simp)

/-- Claim C5, witness: the three parts applied to a concrete send, a
concrete generating state and a concrete action sequence. -/
theorem sequential_request_response_witness :
    handleSendMessage sampleCharacter "hi" true 0 (some "ok") = none ∧
    genStep { generating := true, inFlight := 1 } (GenAction.invoke false) =
      { generating := true, inFlight := 1 } ∧
    (genRun [GenAction.invoke false, GenAction.invoke false, GenAction.finish]).inFlight =
      if (genRun [GenAction.invoke false, GenAction.invoke false,
          GenAction.finish]).generating then 1 else 0 :=
  ⟨sequential_request_response.1 sampleCharacter "hi" 0 (some "ok"),
   sequential_request_response.2.1 { generating := true, inFlight := 1 } false rfl,
   sequential_request_response.2.2 [GenAction.invoke false, GenAction.invoke false,
     GenAction.finish]⟩

/-- Claim C7: on every send the system prompt of the payload equals
interpolatePrompt applied to the selected template with exactly the five
bindings ai_name, user_mask_name, personality, style and word_count (the
decimal string of the configured word count). -/
theorem prompt_template_interpolation (c : Character) (input : String) (now : Nat)
    (resp : String) (h : jsTrim input ≠ "") :
    (handleSendMessage c input false now (some resp)).map (fun r => r.payload.head?) =
      some (some
        { role := "system"
          content := interpolatePrompt
            (if isOfflineMode c then c.offlineConfig.systemPrompt else c.systemPrompt)
            [("ai_name", c.name), ("user_mask_name", c.userMaskName),
             ("personality", c.personality), ("style", c.offlineConfig.style),
             ("word_count", toString c.offlineConfig.wordCount)] }) := by
  rw [handleSendMessage, if_neg (by simp [h])]
  simp [selectedSystemPrompt]

/-- Claim C7, witness: the theorem applied to a concrete character, input
and response. -/
theorem prompt_template_interpolation_witness :
    (handleSendMessage sampleCharacter "hi" false 0 (some "ok")).map
        (fun r => r.payload.head?) =
      some (some
        { role := "system"
          content := interpolatePrompt
            (if isOfflineMode sampleCharacter then sampleCharacter.offlineConfig.systemPrompt
             else sampleCharacter.systemPrompt)
            [("ai_name", sampleCharacter.name),
             ("user_mask_name", sampleCharacter.userMaskName),
             ("personality", sampleCharacter.personality),
             ("style", sampleCharacter.offlineConfig.style),
             ("word_count", toString sampleCharacter.offlineConfig.wordCount)] }) :=
  prompt_template_interpolation sampleCharacter "hi" 0 "ok" (by decide)

/-- Claim C6, counterexample: for a character whose only scenario is
connected and has no messages field, the round trip gives that scenario
an empty messages array, while the claim (which only allows truncating
the message lists of the character and of ISOLATED scenarios, and filling
missing per-character fields) leaves it without one. -/
theorem backup_roundtrip_cex :
    (backupRoundTrip 0 sampleSettings [sampleRawConnected]).2 ≠
      [restoredCharacterAsClaimed sampleRawConnected] := by
  decide

/-- Claim C6 (amended): exporting a backup and then importing and
confirming it restores the same settings, and restores each character
unchanged except that its message list is truncated to the last fifty
elements, the messages field of EVERY scenario (connected or isolated)
becomes the last fifty elements of its message list (an empty array when
it was absent), and missing per-character fields are filled with the
sanitization defaults. -/
theorem backup_roundtrip_amended (now : Nat) (settings : AppSettings)
    (characters : List RawCharacter) :
    backupRoundTrip now settings characters =
      (settings, characters.map restoredCharacterAmended) := by
  unfold backupRoundTrip confirmImport stageExportedBackup handleExportBackup
  simp [List.map_map, Function.comp, sanitize_export_eq_amended]

/-- Claim C8: the export produces a backup whose settings are the input
settings unchanged and whose characters are the input characters with
the messages field replaced by its last fifty elements (empty when not an
array) and the messages field of each scenario replaced by its last fifty
elements (or an empty array); all other character fields unchanged. -/
theorem export_truncation_frame (now : Nat) (settings : AppSettings)
    (characters : List RawCharacter) :
    handleExportBackup now settings characters =
      { version := 1
        type := some "small_phone_backup"
        timestamp := now
        settings := settings
        characters := characters.map exportedCharacterAsClaimed } := by
  unfold handleExportBackup
  rw [funext exportCharacter_eq_claimed]

/-- Claim C9, counterexample: a non-empty file that parses to the object
with the single binding of settings to false HAS the field settings, so
the claim requires it to be staged, but the truthiness test of the
handler rejects it and nothing is staged. -/
theorem import_validation_cex :
    stagedAsClaimed "\x7b\"settings\": false\x7d" (some sampleFalseSettingsJson) = true ∧
    (handleImportFileSelect sampleImportState "\x7b\"settings\": false\x7d"
        (some sampleFalseSettingsJson) 0).pending.isSome = false := by
  decide

/-- Claim C9 (amended): a selected file is staged for confirmation if and
only if its content is non-empty, parses as JSON, is truthy and of object
type, and at least one of the fields settings or characters is present
WITH A TRUTHY VALUE; otherwise an error is reported and nothing is
staged; and in either case the application settings and characters are
untouched by the file-select handler. -/
theorem import_validation_amended (st : ImportJsState) (raw : String)
    (parsed : Option JsonValue) (now : Int) :
    (handleImportFileSelect st raw parsed now).settingsJson = st.settingsJson ∧
    (handleImportFileSelect st raw parsed now).charactersJson = st.charactersJson ∧
    ((handleImportFileSelect st raw parsed now).pending.isSome = true ↔
      (raw ≠ "" ∧ ∃ d, parsed = some d ∧ jsonTruthy d = true ∧
        jsonTypeofIsObject d = true ∧
        (truthyField d "settings" = true ∨ truthyField d "characters" = true))) ∧
    ((handleImportFileSelect st raw parsed now).pending = none →
      (handleImportFileSelect st raw parsed now).msg = ImportMsg.errorShown) ∧
    ((handleImportFileSelect st raw parsed now).pending.isSome = true →
      (handleImportFileSelect st raw parsed now).msg = ImportMsg.waitingConfirm) := by
  by_cases hraw : raw = ""
  · simp [handleImportFileSelect, hraw]
  · cases parsed with
    | none => simp [handleImportFileSelect, hraw]
    | some d =>
      by_cases hA : jsonTruthy d = true
      · by_cases hB : jsonTypeofIsObject d = true
        · by_cases h2 : truthyField d "settings" = false ∧ truthyField d "characters" = false
          · simp [handleImportFileSelect, hraw, hA, hB, h2.1, h2.2]
          · simp [handleImportFileSelect, hraw, hA, hB, h2]
            cases hsb : truthyField d "settings" with
            | true => exact Or.inl rfl
            | false =>
              cases hcb : truthyField d "characters" with
              | true => exact Or.inr rfl
              | false => exact absurd ⟨hsb, hcb⟩ h2
        · simp [handleImportFileSelect, hraw, hA, hB]
      · simp [handleImportFileSelect, hraw, hA]

/-- Claim C9, witness: the amended theorem applied to a concrete state
and a concrete staged-successfully file. -/
theorem import_validation_witness :
    (handleImportFileSelect sampleImportState "x"
        (some (JsonValue.obj [("characters", JsonValue.arr [])])) 0).settingsJson =
      sampleImportState.settingsJson ∧
    (handleImportFileSelect sampleImportState "x"
        (some (JsonValue.obj [("characters", JsonValue.arr [])])) 0).charactersJson =
      sampleImportState.charactersJson ∧
    ((handleImportFileSelect sampleImportState "x"
        (some (JsonValue.obj [("characters", JsonValue.arr [])])) 0).pending.isSome = true ↔
      ("x" ≠ "" ∧ ∃ d, some (JsonValue.obj [("characters", JsonValue.arr [])]) = some d ∧
        jsonTruthy d = true ∧ jsonTypeofIsObject d = true ∧
        (truthyField d "settings" = true ∨ truthyField d "characters" = true))) ∧
    ((handleImportFileSelect sampleImportState "x"
        (some (JsonValue.obj [("characters", JsonValue.arr [])])) 0).pending = none →
      (handleImportFileSelect sampleImportState "x"
        (some (JsonValue.obj [("characters", JsonValue.arr [])])) 0).msg =
        ImportMsg.errorShown) ∧
    ((handleImportFileSelect sampleImportState "x"
        (some (JsonValue.obj [("characters", JsonValue.arr [])])) 0).pending.isSome = true →
      (handleImportFileSelect sampleImportState "x"
        (some (JsonValue.obj [("characters", JsonValue.arr [])])) 0).msg =
        ImportMsg.waitingConfirm) :=
  import_validation_amended sampleImportState "x"
    (some (JsonValue.obj [("characters", JsonValue.arr [])])) 0

/-- Claim C10: every character applied by a confirmed import satisfies
the sanitization invariant: both configurations are present with every
default field defined, the scenarios, diaries, memories and messages
fields are arrays, and the three toggles are booleans. -/
theorem import_sanitization_invariant (b : BackupData) (cs : AppSettings)
    (cc : List RawCharacter) :
    ∀ x ∈ (confirmImport (some b) cs cc).2, sanitizedOk x = true := by
  intro x hx
  simp only [confirmImport] at hx
  rw [List.mem_map] at hx
  obtain ⟨c, -, rfl⟩ := hx
  simp [sanitizedOk, sanitizeCharacter, mergeFurnaceConfig, mergeOfflineConfig,
    DEFAULT_FURNACE_CONFIG, DEFAULT_OFFLINE_CONFIG, spreadOpt_some_isSome]

/-- Claim C10, witness: the invariant at a concrete import of a bare
character with no optional fields. -/
theorem import_sanitization_invariant_witness :
    sanitizedOk (sanitizeCharacter sampleRawBare) = true :=
  import_sanitization_invariant sampleBackup sampleSettings []
    (sanitizeCharacter sampleRawBare) (by decide)

end Mew2
